import Mathlib

/-!
Verification of the payout backend mail relay (`src/server.js`).

The file shallowly embeds the server's request handlers and batch loop:

* JavaScript truthiness on request fields is modelled on `Option String`
  (`none` = absent/null/undefined, `some ""` = empty string).
* The nodemailer transporter is an oracle `Nat → MailOptions → SendOutcome`:
  the `Nat` is the number of dispatcher calls made so far, so an oracle may
  answer differently on successive calls. Handlers also return the number of
  dispatcher calls they made, modelling a mock transport call counter.
* `await new Promise(resolve => setTimeout(resolve, 300))` and each
  `transporter.sendMail` call are recorded as events in a trace, so temporal
  claims about pacing become claims about the trace.
* A JSON `null` element of the `emails` array is modelled by
  `BatchItem.jnull`: destructuring `null` throws, and the `catch` block's
  `emailData.to_email` access throws again, so the exception escapes the
  per-item handler and aborts the whole batch (outer `catch`, HTTP 500).
  A non-null, non-object element (e.g. a number) destructures to all-absent
  fields, which behaves exactly like `BatchItem.item none none none none`.
-/

/-- JavaScript falsiness of an optional string field: `!x` is `true` when the
field is absent (`undefined`/`null`) or the empty string. -/
def falsy : Option String → Bool
  | none => true
  | some s => s.isEmpty

/-- `index || -1` from `server.js` (lines 202, 219, 230): JavaScript `||`
yields `-1` when `index` is absent *or* falsy, and `0` is falsy. -/
def jsOrIndex : Option Int → Int
  | none => -1
  | some i => if i = 0 then -1 else i

/-- One character step of `message.replace(/\n/g, '<br>')` (lines 154, 214):
a global regex replace of the single character `\n` maps each newline to
`<br>` and leaves every other character unchanged. -/
def replaceNl : List Char → String
  | [] => ""
  | c :: cs => (if c = '\n' then "<br>" else String.singleton c) ++ replaceNl cs

/-- `message.replace(/\n/g, '<br>')`. -/
def toHtml (s : String) : String := replaceNl s.data

/-- The `mailOptions` object built by both handlers (lines 149–155, 209–215). -/
structure MailOptions where
  fromAddr : String
  toAddr : String
  subject : String
  text : String
  html : String
deriving Repr, DecidableEq

/-- `mailOptions = { from, to, subject, text, html: message.replace(...) }`. -/
def mkMailOptions (fromEmail toEmail subject message : String) : MailOptions :=
  { fromAddr := fromEmail, toAddr := toEmail, subject := subject,
    text := message, html := toHtml message }

/-- Result of one `transporter.sendMail` call: resolves with an `info`
carrying `messageId`, or rejects with an error whose `message` is a string. -/
inductive SendOutcome where
  | ok (messageId : String)
  | err (reason : String)
deriving Repr, DecidableEq

/-- One element of the `results` array pushed by the batch loop
(lines 201–205, 218–223, 229–233). -/
structure SendResult where
  index : Int
  success : Bool
  message : String
  messageId : Option String
deriving Repr, DecidableEq

/-- One element of the request's `emails` array. `jnull` is the JSON value
`null`; `item` is an object (absent fields are `none`). A non-null non-object
JSON value destructures to all-absent fields, i.e. behaves like
`item none none none none`. -/
inductive BatchItem where
  | jnull
  | item (to_email subject message : Option String) (index : Option Int)
deriving Repr, DecidableEq

/-- The `emails` field of a batch request body: `invalid` when absent, falsy,
or not an array (rejected at lines 180–185); otherwise the array itself. -/
inductive BatchBody where
  | invalid
  | arr (items : List BatchItem)
deriving Repr, DecidableEq

/-- How a batch run aborts: iterating over a `null` element throws while
destructuring, and the `catch` block rethrows reading `emailData.to_email`
of `null`, so the exception reaches the outer `catch` (lines 242–248). -/
inductive BatchAbort where
  | nullItem
deriving Repr, DecidableEq

/-- Observable events of a batch run: a dispatcher invocation with its
outcome, and the fixed pause `setTimeout(resolve, 300)` (line 226). -/
inductive BatchEvent where
  | dispatched (opts : MailOptions) (outcome : SendOutcome)
  | delayed (ms : Nat)
deriving Repr, DecidableEq

/-- The body of the `for (const emailData of emails)` loop for one element
(lines 196–235), given the oracle and the dispatcher-call count so far.
Returns the pushed `SendResult` (or the abort), the events emitted, and the
updated call count. -/
def processItem (fromEmail : String) (send : Nat → MailOptions → SendOutcome)
    (calls : Nat) : BatchItem → Except BatchAbort SendResult × List BatchEvent × Nat
  | .jnull => (.error .nullItem, [], calls)
  | .item to_email subject message index =>
    if falsy to_email || falsy subject || falsy message then
      (.ok { index := jsOrIndex index, success := false,
             message := "Missing required fields", messageId := none }, [], calls)
    else
      let opts := mkMailOptions fromEmail (to_email.getD "") (subject.getD "")
        (message.getD "")
      match send calls opts with
      | .ok mid =>
        (.ok { index := jsOrIndex index, success := true,
               message := "Email sent successfully", messageId := some mid },
         [.dispatched opts (.ok mid), .delayed 300], calls + 1)
      | .err reason =>
        (.ok { index := jsOrIndex index, success := false,
               message := "Failed to send email: " ++ reason, messageId := none },
         [.dispatched opts (.err reason)], calls + 1)

/-- The whole batch loop (lines 194–235): accumulates `results` in input
order; an abort discards the accumulated results (the outer `catch` responds
without them) but the events already emitted did happen. -/
def processBatch (fromEmail : String) (send : Nat → MailOptions → SendOutcome)
    (calls : Nat) :
    List BatchItem → Except BatchAbort (List SendResult) × List BatchEvent × Nat
  | [] => (.ok [], [], calls)
  | it :: rest =>
    match processItem fromEmail send calls it with
    | (.error e, evs, c) => (.error e, evs, c)
    | (.ok r, evs, c) =>
      match processBatch fromEmail send c rest with
      | (.error e, evs2, c2) => (.error e, evs ++ evs2, c2)
      | (.ok rs, evs2, c2) => (.ok (r :: rs), evs ++ evs2, c2)

/-- Environment-derived server state: whether a transporter was created at
startup (lines 93–115) and the sender address
`process.env.FROM_EMAIL || process.env.GMAIL_USER` (lines 150, 210). -/
structure ServerEnv where
  transporterConfigured : Bool
  fromEmail : String
deriving Repr, DecidableEq

/-- JSON response of `POST /api/send-batch`. `results` is `none` when the
response carries no `results` field. -/
structure BatchResponse where
  status : Nat
  success : Bool
  message : String
  results : Option (List SendResult)
deriving Repr, DecidableEq

/-- The `POST /api/send-batch` handler (lines 176–249): rejects a missing or
non-array `emails`, then an unconfigured transporter, then runs the loop;
a completed loop answers 200 with `success: true`, an abort answers 500 from
the outer `catch`. Also returns the event trace and dispatcher-call count. -/
def sendBatchHandler (env : ServerEnv) (send : Nat → MailOptions → SendOutcome)
    (body : BatchBody) : BatchResponse × List BatchEvent × Nat :=
  match body with
  | .invalid =>
    ({ status := 400, success := false,
       message := "Missing or invalid emails array", results := none }, [], 0)
  | .arr items =>
    if !env.transporterConfigured then
      ({ status := 500, success := false,
         message := "Email service is not configured on the server",
         results := none }, [], 0)
    else
      match processBatch env.fromEmail send 0 items with
      | (.ok rs, evs, c) =>
        ({ status := 200, success := true,
           message := "Batch email processing completed", results := some rs },
         evs, c)
      | (.error _, evs, c) =>
        ({ status := 500, success := false,
           message := "Failed to process batch emails", results := none },
         evs, c)

/-- Body of `POST /api/send-email`. -/
structure SingleBody where
  to_email : Option String
  subject : Option String
  message : Option String
deriving Repr, DecidableEq

/-- JSON response of `POST /api/send-email`. -/
structure SingleResponse where
  status : Nat
  success : Bool
  message : String
  messageId : Option String
deriving Repr, DecidableEq

/-- The `POST /api/send-email` handler (lines 128–173): field validation,
then the configured-transporter check, then one dispatcher call; a rejected
`sendMail` is caught and answered with 500. Also returns the number of
dispatcher calls made (0 or 1). -/
def sendEmailHandler (env : ServerEnv) (send : MailOptions → SendOutcome)
    (body : SingleBody) : SingleResponse × Nat :=
  if falsy body.to_email || falsy body.subject || falsy body.message then
    ({ status := 400, success := false,
       message := "Missing required fields: to_email, subject, or message",
       messageId := none }, 0)
  else if !env.transporterConfigured then
    ({ status := 500, success := false,
       message := "Email service is not configured on the server",
       messageId := none }, 0)
  else
    match send (mkMailOptions env.fromEmail (body.to_email.getD "")
        (body.subject.getD "") (body.message.getD "")) with
    | .ok mid =>
      ({ status := 200, success := true, message := "Email sent successfully",
         messageId := some mid }, 1)
    | .err reason =>
      ({ status := 500, success := false,
         message := "Failed to send email: " ++ reason, messageId := none }, 1)

/-- `points: 100` of the `RateLimiterMemory` configuration (line 15). -/
def rateLimiterPoints : Nat := 100

/-- `duration: 60` (seconds) of the `RateLimiterMemory` configuration (line 16). -/
def rateLimiterDuration : Nat := 60

/-- Per-client rate-limiter bucket: the start time of the current fixed
window and the number of requests counted in it. -/
structure LimiterState where
  windowStart : Nat
  count : Nat
deriving Repr, DecidableEq

/-- Modelled from the spec: `rateLimiter.consume` of the external
`rate-limiter-flexible` dependency (`RateLimiterMemory`), whose code is not
in `src/`. Spec §4.1: per key, count admitted requests in a fixed window of
`duration`; increment on each request; reject when the post-increment count
exceeds the quota; the window resets once `duration` has elapsed. `none` is
a key never seen (or whose window data is gone). Returns whether the request
is admitted and the new bucket. -/
def consume (points duration : Nat) (now : Nat) :
    Option LimiterState → Bool × LimiterState
  | none => (1 ≤ points, ⟨now, 1⟩)
  | some st =>
    if st.windowStart + duration ≤ now then
      (1 ≤ points, ⟨now, 1⟩)
    else
      (st.count + 1 ≤ points, ⟨st.windowStart, st.count + 1⟩)

/-- `consume` folded over a list of request times for one client, recording
each admission decision. -/
def consumeAll (points duration : Nat) :
    Option LimiterState → List Nat → List Bool × Option LimiterState
  | st, [] => ([], st)
  | st, t :: ts =>
    let (ok, st1) := consume points duration t st
    let (oks, st2) := consumeAll points duration (some st1) ts
    (ok :: oks, st2)

/-- Outcome of the rate-limiting middleware (lines 65–75) for one request. -/
inductive MwOutcome where
  | throttled (status : Nat) (success : Bool) (message : String)
  | admitted
deriving Repr, DecidableEq

/-- The rate-limiting middleware (lines 65–75): `consume` with the server's
configured points and duration; on rejection respond
`429 { success: false, message: 'Too many requests, ...' }` and do not call
`next()`; otherwise pass the request on. -/
def rateLimitMiddleware (st : Option LimiterState) (now : Nat) :
    MwOutcome × LimiterState :=
  let (ok, st1) := consume rateLimiterPoints rateLimiterDuration now st
  if ok then (.admitted, st1)
  else (.throttled 429 false "Too many requests, please try again later.", st1)

/-- A `POST /api/send-email` request as seen from the outside: the
middleware first, the handler only if admitted. Returns the response, the
dispatcher-call count, and the client's new limiter bucket. -/
def singlePipeline (st : Option LimiterState) (now : Nat) (env : ServerEnv)
    (send : MailOptions → SendOutcome) (body : SingleBody) :
    SingleResponse × Nat × LimiterState :=
  match rateLimitMiddleware st now with
  | (.throttled status success message, st1) =>
    ({ status := status, success := success, message := message,
       messageId := none }, 0, st1)
  | (.admitted, st1) =>
    let (resp, calls) := sendEmailHandler env send body
    (resp, calls, st1)

/-- The per-item validation `!to_email || !subject || !message` (line 200);
`false` on a `null` element, whose iteration never reaches the test. -/
def missingFields : BatchItem → Bool
  | .jnull => false
  | .item to_email subject message _ => falsy to_email || falsy subject || falsy message

/-- The index the loop writes into an element's result: `index || -1`. -/
def itemIndex : BatchItem → Int
  | .jnull => -1
  | .item _ _ _ index => jsOrIndex index

/-- Positional correspondence between an input element and its result: the
result echoes the element's `index || -1`, and a validation-rejected element
gets exactly the failed `Missing required fields` result. -/
def resultMatches (it : BatchItem) (r : SendResult) : Prop :=
  r.index = itemIndex it ∧
    (missingFields it = true →
      r = ⟨itemIndex it, false, "Missing required fields", none⟩)

theorem processItem_ok (f : String) (send : Nat → MailOptions → SendOutcome)
    (calls : Nat) (t s m : Option String) (idx : Option Int) :
    ∃ r, (processItem f send calls (BatchItem.item t s m idx)).1 = Except.ok r ∧
      resultMatches (BatchItem.item t s m idx) r := by
  by_cases hmf : (falsy t || falsy s || falsy m) = true
  · exact ⟨⟨jsOrIndex idx, false, "Missing required fields", none⟩,
      by simp [processItem, hmf],
      by simp [resultMatches, missingFields, itemIndex, hmf]⟩
  · cases hs : send calls (mkMailOptions f (t.getD "") (s.getD "") (m.getD "")) with
    | ok mid =>
      exact ⟨⟨jsOrIndex idx, true, "Email sent successfully", some mid⟩,
        by simp [processItem, hmf, hs],
        by simp [resultMatches, missingFields, itemIndex, hmf]⟩
    | err reason =>
      exact ⟨⟨jsOrIndex idx, false, "Failed to send email: " ++ reason, none⟩,
        by simp [processItem, hmf, hs],
        by simp [resultMatches, missingFields, itemIndex, hmf]⟩

theorem processBatch_no_null (f : String) (send : Nat → MailOptions → SendOutcome)
    (items : List BatchItem) :
    ∀ calls : Nat, (∀ it ∈ items, it ≠ BatchItem.jnull) →
      ∃ rs, (processBatch f send calls items).1 = Except.ok rs ∧
        List.Forall₂ resultMatches items rs := by
  induction items with
  | nil => exact fun _ _ => ⟨[], rfl, List.Forall₂.nil⟩
  | cons it rest ih =>
    intro calls h
    have hit : it ≠ BatchItem.jnull := h it (List.mem_cons_self it rest)
    have hrest : ∀ x ∈ rest, x ≠ BatchItem.jnull :=
      fun x hx => h x (List.mem_cons_of_mem it hx)
    cases it with
    | jnull => exact absurd rfl hit
    | item t s m idx =>
      obtain ⟨r, hr, hmatch⟩ := processItem_ok f send calls t s m idx
      rcases hpi : processItem f send calls (BatchItem.item t s m idx) with ⟨res, evs, c⟩
      rw [hpi] at hr
      obtain ⟨rs, hrs, hrel⟩ := ih c hrest
      rcases hpb : processBatch f send c rest with ⟨res2, evs2, c2⟩
      rw [hpb] at hrs
      refine ⟨r :: rs, ?_, List.Forall₂.cons hmatch hrel⟩
      simp only at hr hrs
      subst hr hrs
      simp [processBatch, hpi, hpb]

/-- Claim C1, counterexample: with the transport configured, the batch
request whose `emails` array is `[null]` — an array of one item — is
answered by the outer `catch` with a 500 response carrying *no* results
sequence at all, not a one-entry results sequence with a failed result. -/
theorem c1_counterexample :
    (sendBatchHandler ⟨true, "sender@x.com"⟩ (fun _ _ => SendOutcome.ok "mid")
      (BatchBody.arr [BatchItem.jnull])).1
      = ⟨500, false, "Failed to process batch emails", none⟩ := by
  decide

/-- Claim C1 (amended): for every batch request whose `emails` field is an
array of N items *none of which is JSON null* (transport configured), the
response carries a results sequence of exactly N entries, positionally
matched to the inputs in order; a malformed (but non-null) item yields the
failed `Missing required fields` result in its position rather than being
skipped. A null item instead aborts the whole batch (see the
counterexample). -/
theorem c1_results_one_per_item (env : ServerEnv)
    (send : Nat → MailOptions → SendOutcome) (items : List BatchItem)
    (hconf : env.transporterConfigured = true)
    (hnn : ∀ it ∈ items, it ≠ BatchItem.jnull) :
    ∃ rs, (sendBatchHandler env send (.arr items)).1.results = some rs ∧
      rs.length = items.length ∧ List.Forall₂ resultMatches items rs := by
  obtain ⟨rs, hrs, hrel⟩ := processBatch_no_null env.fromEmail send items 0 hnn
  rcases hpb : processBatch env.fromEmail send 0 items with ⟨res, evs, c⟩
  rw [hpb] at hrs
  simp only at hrs
  subst hrs
  exact ⟨rs, by simp [sendBatchHandler, hconf, hpb],
    (List.Forall₂.length_eq hrel).symm, hrel⟩

theorem c1_witness :
    (⟨true, "sender@x.com"⟩ : ServerEnv).transporterConfigured = true ∧
    (∀ it ∈ [BatchItem.item (some "a@x.com") (some "S1") (some "M1") (some 1),
             BatchItem.item none (some "S2") (some "M2") (some 2)],
      it ≠ BatchItem.jnull) ∧
    ∃ rs, (sendBatchHandler ⟨true, "sender@x.com"⟩ (fun _ _ => SendOutcome.ok "mid")
        (BatchBody.arr
          [BatchItem.item (some "a@x.com") (some "S1") (some "M1") (some 1),
           BatchItem.item none (some "S2") (some "M2") (some 2)])).1.results
        = some rs ∧
      rs.length =
        [BatchItem.item (some "a@x.com") (some "S1") (some "M1") (some 1),
         BatchItem.item none (some "S2") (some "M2") (some 2)].length ∧
      List.Forall₂ resultMatches
        [BatchItem.item (some "a@x.com") (some "S1") (some "M1") (some 1),
         BatchItem.item none (some "S2") (some "M2") (some 2)] rs :=
  ⟨rfl, by decide, c1_results_one_per_item _ _ _ rfl (by decide)⟩

/-- Claim C2, counterexample: a batch item with caller-supplied `index: 0`
and valid fields yields a result whose `index` is `-1`, not `0`: JavaScript
`index || -1` treats the falsy value `0` like an absent index. -/
theorem c2_counterexample :
    (sendBatchHandler ⟨true, "sender@x.com"⟩ (fun _ _ => SendOutcome.ok "mid")
      (BatchBody.arr
        [BatchItem.item (some "a@x.com") (some "S1") (some "M1") (some 0)])).1.results
      = some [⟨-1, true, "Email sent successfully", some "mid"⟩] := by
  decide

/-- Claim C2 (amended): for every batch item, the result's `index` echoes
the caller-supplied index when that index is present and nonzero, and equals
`-1` when the index is absent *or equal to 0* (`index || -1` coerces the
falsy value `0` to `-1`). This holds on every branch of the item loop. -/
theorem c2_index_echo (f : String) (send : Nat → MailOptions → SendOutcome)
    (calls : Nat) (t s m : Option String) (idx : Option Int) (r : SendResult)
    (h : (processItem f send calls (BatchItem.item t s m idx)).1 = Except.ok r) :
    ((idx = none ∨ idx = some 0) → r.index = -1) ∧
      (∀ i : Int, idx = some i → i ≠ 0 → r.index = i) := by
  have hidx : r.index = jsOrIndex idx := by
    by_cases hmf : (falsy t || falsy s || falsy m) = true
    · simp [processItem, hmf] at h
      rw [← h]
    · cases hs : send calls (mkMailOptions f (t.getD "") (s.getD "") (m.getD "")) with
      | ok mid =>
        simp [processItem, hmf, hs] at h
        rw [← h]
      | err reason =>
        simp [processItem, hmf, hs] at h
        rw [← h]
  constructor
  · rintro (rfl | rfl) <;> simpa [jsOrIndex] using hidx
  · rintro i rfl hi
    simpa [jsOrIndex, hi] using hidx

theorem c2_witness :
    (processItem "sender@x.com" (fun _ _ => SendOutcome.ok "mid") 0
        (BatchItem.item (some "a@x.com") (some "S1") (some "M1") (some 0))).1
      = Except.ok ⟨-1, true, "Email sent successfully", some "mid"⟩ ∧
    (⟨-1, true, "Email sent successfully", some "mid"⟩ : SendResult).index = -1 :=
  ⟨rfl,
    (c2_index_echo "sender@x.com" (fun _ _ => SendOutcome.ok "mid") 0
      (some "a@x.com") (some "S1") (some "M1") (some 0)
      ⟨-1, true, "Email sent successfully", some "mid"⟩ rfl).1
      (Or.inr rfl)⟩

/-- Checks the pacing discipline the batch loop actually implements: the
trace is a sequence of blocks, each either a successful dispatch immediately
followed by the fixed 300 ms pause, or a failed dispatch followed by no
pause. Validation-rejected items emit no events at all, so in a trace
accepted by this checker no pause ever follows them either. -/
def pausedCorrectly : List BatchEvent → Bool
  | [] => true
  | .dispatched _ (.ok _) :: .delayed d :: rest => d == 300 && pausedCorrectly rest
  | .dispatched _ (.err _) :: rest => pausedCorrectly rest
  | _ => false

/-- Claim C3, counterexample: an item whose dispatch fails produces a trace
with one dispatcher invocation and *no* pause at all — the `setTimeout`
sits after the successful `sendMail` inside the `try`, so a rejected
`sendMail` jumps to the `catch` and skips it. -/
theorem c3_counterexample :
    (processBatch "sender@x.com" (fun _ _ => SendOutcome.err "boom") 0
        [BatchItem.item (some "a@x.com") (some "S1") (some "M1") (some 1)]).2.1
      = [BatchEvent.dispatched
          (mkMailOptions "sender@x.com" "a@x.com" "S1" "M1")
          (SendOutcome.err "boom")] ∧
    BatchEvent.delayed 300 ∉
      (processBatch "sender@x.com" (fun _ _ => SendOutcome.err "boom") 0
        [BatchItem.item (some "a@x.com") (some "S1") (some "M1") (some 1)]).2.1 := by
  constructor
  · rfl
  · decide

/-- Claim C3 (amended): in every batch run, the fixed 300 ms inter-item
pause occurs immediately after each item whose dispatch *succeeded*, and
after no other item: not after an item whose dispatch failed, and not after
an item rejected by pre-dispatch validation (which emits no events). -/
theorem c3_pause_only_after_successful_dispatch (f : String)
    (send : Nat → MailOptions → SendOutcome) (items : List BatchItem) :
    ∀ calls : Nat, pausedCorrectly (processBatch f send calls items).2.1 = true := by
  induction items with
  | nil => intro calls; rfl
  | cons it rest ih =>
    intro calls
    cases it with
    | jnull => simp [processBatch, processItem, pausedCorrectly]
    | item t s m idx =>
      by_cases hmf : (falsy t || falsy s || falsy m) = true
      · rcases hpb : processBatch f send calls rest with ⟨res2, evs2, c2⟩
        have hrest := ih calls
        rw [hpb] at hrest
        cases res2 <;> simp_all [processBatch, processItem, hmf]
      · cases hs : send calls (mkMailOptions f (t.getD "") (s.getD "") (m.getD "")) with
        | ok mid =>
          rcases hpb : processBatch f send (calls + 1) rest with ⟨res2, evs2, c2⟩
          have hrest := ih (calls + 1)
          rw [hpb] at hrest
          cases res2 <;> simp_all [processBatch, processItem, hmf, hs, pausedCorrectly]
        | err reason =>
          rcases hpb : processBatch f send (calls + 1) rest with ⟨res2, evs2, c2⟩
          have hrest := ih (calls + 1)
          rw [hpb] at hrest
          cases res2 <;> simp_all [processBatch, processItem, hmf, hs, pausedCorrectly]

theorem falsy_some_false {s : String} (h : s ≠ "") : falsy (some s) = false := by
  have hne : ¬ s.isEmpty = true := fun hc => h ((String.isEmpty_iff s).mp hc)
  simp only [falsy]
  exact Bool.eq_false_iff.mpr hne

/-- Claim C4: a batch item whose dispatch fails gets the result
`{ index || -1, success: false, message: 'Failed to send email: ' + reason }`,
and the loop continues with all remaining items: the rest of the batch
produces exactly what it would produce starting from the next call number. -/
theorem c4_dispatch_failure_isolated (f : String)
    (send : Nat → MailOptions → SendOutcome) (calls : Nat)
    (te su me : String) (idx : Option Int) (rest : List BatchItem)
    (reason : String)
    (hte : te ≠ "") (hsu : su ≠ "") (hme : me ≠ "")
    (hs : send calls (mkMailOptions f te su me) = SendOutcome.err reason) :
    (processBatch f send calls
        (BatchItem.item (some te) (some su) (some me) idx :: rest)).1
      = ((processBatch f send (calls + 1) rest).1).map
          (fun rs =>
            ⟨jsOrIndex idx, false, "Failed to send email: " ++ reason, none⟩ :: rs) := by
  rcases hpb : processBatch f send (calls + 1) rest with ⟨res2, evs2, c2⟩
  cases res2 <;>
    simp [processBatch, processItem, falsy_some_false hte, falsy_some_false hsu,
      falsy_some_false hme, hs, hpb, Except.map]

theorem c4_witness :
    ("a@x.com" : String) ≠ "" ∧ ("S1" : String) ≠ "" ∧ ("M1" : String) ≠ "" ∧
    (fun _ _ => SendOutcome.err "boom") 0
        (mkMailOptions "sender@x.com" "a@x.com" "S1" "M1")
      = SendOutcome.err "boom" ∧
    (processBatch "sender@x.com" (fun _ _ => SendOutcome.err "boom") 0
        (BatchItem.item (some "a@x.com") (some "S1") (some "M1") (some 1)
          :: [BatchItem.item (some "b@x.com") (some "S2") (some "M2") (some 2)])).1
      = ((processBatch "sender@x.com" (fun _ _ => SendOutcome.err "boom") 1
          [BatchItem.item (some "b@x.com") (some "S2") (some "M2") (some 2)]).1).map
          (fun rs => ⟨jsOrIndex (some 1), false,
            "Failed to send email: " ++ "boom", none⟩ :: rs) :=
  ⟨by decide, by decide, by decide, rfl,
    c4_dispatch_failure_isolated "sender@x.com" (fun _ _ => SendOutcome.err "boom")
      0 "a@x.com" "S1" "M1" (some 1)
      [BatchItem.item (some "b@x.com") (some "S2") (some "M2") (some 2)] "boom"
      (by decide) (by decide) (by decide) rfl⟩

/-- Claim C5: whenever the batch loop runs to completion — `processBatch`
returns `ok` over the whole `emails` array — the handler answers 200 with
`success: true` and the completion message, whatever the individual results
contain. -/
theorem c5_batch_completion_success (env : ServerEnv)
    (send : Nat → MailOptions → SendOutcome) (items : List BatchItem)
    (rs : List SendResult) (evs : List BatchEvent) (c : Nat)
    (hconf : env.transporterConfigured = true)
    (hok : processBatch env.fromEmail send 0 items = (Except.ok rs, evs, c)) :
    (sendBatchHandler env send (.arr items)).1
      = ⟨200, true, "Batch email processing completed", some rs⟩ := by
  simp [sendBatchHandler, hconf, hok]

theorem c5_witness :
    (⟨true, "sender@x.com"⟩ : ServerEnv).transporterConfigured = true ∧
    processBatch "sender@x.com" (fun _ _ => SendOutcome.err "boom") 0
        [BatchItem.item (some "a@x.com") (some "S1") (some "M1") (some 1)]
      = (Except.ok [⟨1, false, "Failed to send email: " ++ "boom", none⟩],
         [BatchEvent.dispatched (mkMailOptions "sender@x.com" "a@x.com" "S1" "M1")
            (SendOutcome.err "boom")], 1) ∧
    (sendBatchHandler ⟨true, "sender@x.com"⟩ (fun _ _ => SendOutcome.err "boom")
        (.arr [BatchItem.item (some "a@x.com") (some "S1") (some "M1") (some 1)])).1
      = ⟨200, true, "Batch email processing completed",
          some [⟨1, false, "Failed to send email: " ++ "boom", none⟩]⟩ :=
  ⟨rfl, rfl,
    c5_batch_completion_success ⟨true, "sender@x.com"⟩
      (fun _ _ => SendOutcome.err "boom")
      [BatchItem.item (some "a@x.com") (some "S1") (some "M1") (some 1)]
      [⟨1, false, "Failed to send email: " ++ "boom", none⟩]
      [BatchEvent.dispatched (mkMailOptions "sender@x.com" "a@x.com" "S1" "M1")
        (SendOutcome.err "boom")] 1 rfl rfl⟩

/-- Claim C6: a single-send request in which `to_email`, `subject` or
`message` is missing or empty is answered 400 with `success: false`, and
the dispatcher is never invoked (the handler's call counter is 0). -/
theorem c6_single_validation_rejects (env : ServerEnv)
    (send : MailOptions → SendOutcome) (body : SingleBody)
    (h : (falsy body.to_email || falsy body.subject || falsy body.message) = true) :
    (sendEmailHandler env send body).1.success = false ∧
      (sendEmailHandler env send body).1.status = 400 ∧
      (sendEmailHandler env send body).2 = 0 := by
  simp [sendEmailHandler, h]

theorem c6_witness :
    (falsy (SingleBody.mk (some "a@x.com") (some "S1") none).to_email ||
      falsy (SingleBody.mk (some "a@x.com") (some "S1") none).subject ||
      falsy (SingleBody.mk (some "a@x.com") (some "S1") none).message) = true ∧
    (sendEmailHandler ⟨true, "sender@x.com"⟩ (fun _ => SendOutcome.ok "mid")
        (SingleBody.mk (some "a@x.com") (some "S1") none)).1.success = false ∧
    (sendEmailHandler ⟨true, "sender@x.com"⟩ (fun _ => SendOutcome.ok "mid")
        (SingleBody.mk (some "a@x.com") (some "S1") none)).1.status = 400 ∧
    (sendEmailHandler ⟨true, "sender@x.com"⟩ (fun _ => SendOutcome.ok "mid")
        (SingleBody.mk (some "a@x.com") (some "S1") none)).2 = 0 :=
  ⟨by decide,
    c6_single_validation_rejects ⟨true, "sender@x.com"⟩
      (fun _ => SendOutcome.ok "mid")
      (SingleBody.mk (some "a@x.com") (some "S1") none) (by decide)⟩

/-- Claim C7: with no transporter resolved at startup, a single-send request
with all three fields present and a batch request with an array-shaped
`emails` are both answered 500 with exactly
`'Email service is not configured on the server'` and zero dispatcher
calls — the process keeps serving rather than crashing. -/
theorem c7_unconfigured_rejects (f : String)
    (send1 : MailOptions → SendOutcome) (send2 : Nat → MailOptions → SendOutcome)
    (body : SingleBody) (items : List BatchItem)
    (h : (falsy body.to_email || falsy body.subject || falsy body.message) = false) :
    sendEmailHandler ⟨false, f⟩ send1 body
      = (⟨500, false, "Email service is not configured on the server", none⟩, 0) ∧
    sendBatchHandler ⟨false, f⟩ send2 (.arr items)
      = (⟨500, false, "Email service is not configured on the server", none⟩, [], 0) := by
  constructor
  · simp [sendEmailHandler, h]
  · simp [sendBatchHandler]

theorem c7_witness :
    (falsy (SingleBody.mk (some "a@x.com") (some "S1") (some "M1")).to_email ||
      falsy (SingleBody.mk (some "a@x.com") (some "S1") (some "M1")).subject ||
      falsy (SingleBody.mk (some "a@x.com") (some "S1") (some "M1")).message) = false ∧
    (sendEmailHandler ⟨false, "sender@x.com"⟩ (fun _ => SendOutcome.ok "mid")
        (SingleBody.mk (some "a@x.com") (some "S1") (some "M1"))
      = (⟨500, false, "Email service is not configured on the server", none⟩, 0) ∧
    sendBatchHandler ⟨false, "sender@x.com"⟩ (fun _ _ => SendOutcome.ok "mid")
        (.arr [BatchItem.item (some "a@x.com") (some "S1") (some "M1") (some 1)])
      = (⟨500, false, "Email service is not configured on the server", none⟩, [], 0)) :=
  ⟨by decide,
    c7_unconfigured_rejects "sender@x.com" (fun _ => SendOutcome.ok "mid")
      (fun _ _ => SendOutcome.ok "mid")
      (SingleBody.mk (some "a@x.com") (some "S1") (some "M1"))
      [BatchItem.item (some "a@x.com") (some "S1") (some "M1") (some 1)]
      (by decide)⟩

theorem consumeAll_in_window (t0 : Nat) :
    ∀ (ts : List Nat) (c : Nat),
      (∀ x ∈ ts, x < t0 + rateLimiterDuration) →
      c + ts.length ≤ rateLimiterPoints →
      consumeAll rateLimiterPoints rateLimiterDuration (some ⟨t0, c⟩) ts
        = (List.replicate ts.length true, some ⟨t0, c + ts.length⟩) := by
  intro ts
  induction ts with
  | nil => intro c _ _; simp [consumeAll]
  | cons t ts ih =>
    intro c hwin hle
    have ht : t < t0 + rateLimiterDuration := hwin t (List.mem_cons_self t ts)
    have h1 : ¬ (t0 + rateLimiterDuration ≤ t) := by omega
    have hlen : c + (ts.length + 1) ≤ rateLimiterPoints := by
      simpa using hle
    have h2 : c + 1 ≤ rateLimiterPoints := by omega
    have hrec := ih (c + 1) (fun x hx => hwin x (List.mem_cons_of_mem t hx))
      (by omega)
    simp only [consumeAll, consume, h1, if_false, hrec]
    rw [decide_eq_true h2]
    simp only [List.length_cons, List.replicate_succ, Prod.mk.injEq,
      Option.some.injEq, LimiterState.mk.injEq, true_and]
    omega

/-- Claim C8: with the configured quota of 100 points per 60-second window,
a client whose first request arrives at `t0` and who makes the full quota of
requests inside the window is admitted every time; the 101st request inside
the same window gets the throttled response
`429 { success: false, message: 'Too many requests, please try again later.' }`
and causes no dispatcher call; the same request made once the window has
elapsed is admitted. -/
theorem c8_rate_limit (t0 : Nat) (ts : List Nat) (tLate tNext : Nat)
    (env : ServerEnv) (send : MailOptions → SendOutcome) (body : SingleBody)
    (hlen : ts.length = rateLimiterPoints - 1)
    (hwin : ∀ x ∈ ts, x < t0 + rateLimiterDuration)
    (hlate : tLate < t0 + rateLimiterDuration)
    (hnext : t0 + rateLimiterDuration ≤ tNext) :
    consumeAll rateLimiterPoints rateLimiterDuration none (t0 :: ts)
      = (List.replicate (t0 :: ts).length true, some ⟨t0, rateLimiterPoints⟩) ∧
    singlePipeline (some ⟨t0, rateLimiterPoints⟩) tLate env send body
      = (⟨429, false, "Too many requests, please try again later.", none⟩, 0,
         ⟨t0, rateLimiterPoints + 1⟩) ∧
    (rateLimitMiddleware (some ⟨t0, rateLimiterPoints⟩) tNext).1
      = MwOutcome.admitted := by
  have hlen99 : ts.length = 99 := by simpa [rateLimiterPoints] using hlen
  refine ⟨?_, ?_, ?_⟩
  · have h9 : 1 + ts.length ≤ rateLimiterPoints := by
      simp only [rateLimiterPoints]
      omega
    have hrec := consumeAll_in_window t0 ts 1 hwin h9
    simp only [consumeAll, consume, hrec]
    rw [decide_eq_true (by simp [rateLimiterPoints] : (1 : Nat) ≤ rateLimiterPoints)]
    simp only [List.length_cons, List.replicate_succ, Prod.mk.injEq,
      Option.some.injEq, LimiterState.mk.injEq, true_and, hlen99]
    simp [rateLimiterPoints]
  · have h1 : ¬ (t0 + rateLimiterDuration ≤ tLate) := by omega
    simp [singlePipeline, rateLimitMiddleware, consume, h1, rateLimiterPoints]
  · simp [rateLimitMiddleware, consume, hnext, rateLimiterPoints]

theorem c8_witness :
    (List.replicate 99 0).length = rateLimiterPoints - 1 ∧
    (∀ x ∈ List.replicate 99 0, x < 0 + rateLimiterDuration) ∧
    1 < 0 + rateLimiterDuration ∧
    0 + rateLimiterDuration ≤ 60 ∧
    (consumeAll rateLimiterPoints rateLimiterDuration none
        ((0 : Nat) :: List.replicate 99 0)
      = (List.replicate ((0 : Nat) :: List.replicate 99 0).length true,
         some ⟨0, rateLimiterPoints⟩) ∧
    singlePipeline (some ⟨0, rateLimiterPoints⟩) 1 ⟨true, "sender@x.com"⟩
        (fun _ => SendOutcome.ok "mid")
        (SingleBody.mk (some "a@x.com") (some "S1") (some "M1"))
      = (⟨429, false, "Too many requests, please try again later.", none⟩, 0,
         ⟨0, rateLimiterPoints + 1⟩) ∧
    (rateLimitMiddleware (some ⟨0, rateLimiterPoints⟩) 60).1
      = MwOutcome.admitted) :=
  ⟨by decide, by decide, by decide, by decide,
    c8_rate_limit 0 (List.replicate 99 0) 1 60 ⟨true, "sender@x.com"⟩
      (fun _ => SendOutcome.ok "mid")
      (SingleBody.mk (some "a@x.com") (some "S1") (some "M1"))
      (by decide) (by decide) (by decide) (by decide)⟩

theorem string_join_cons (a : String) (l : List String) :
    String.join (a :: l) = a ++ String.join l := by
  apply String.ext
  simp [String.join_eq, String.data_append]

theorem replaceNl_eq_join : ∀ cs : List Char,
    replaceNl cs
      = String.join (cs.map fun c => if c = '\n' then "<br>" else String.singleton c)
  | [] => rfl
  | c :: cs => by
    rw [List.map_cons, string_join_cons, replaceNl, replaceNl_eq_join cs]

theorem replaceNl_no_newline : ∀ cs : List Char, (∀ c ∈ cs, c ≠ '\n') →
    replaceNl cs = String.mk cs
  | [], _ => rfl
  | c :: cs, h => by
    have hc : c ≠ '\n' := h c (List.mem_cons_self c cs)
    rw [replaceNl, if_neg hc,
      replaceNl_no_newline cs (fun x hx => h x (List.mem_cons_of_mem c hx))]
    apply String.ext
    simp [String.singleton, String.data_append]

/-- Claim C9: the mail options submitted to the dispatcher carry the body
verbatim as `text`, and as `html` the body with every newline character
replaced by the `<br>` tag and every other character left untouched — in
particular a body with no newline passes through unaltered (no escaping). -/
theorem c9_html_newline_transform (f te su m : String) :
    (mkMailOptions f te su m).text = m ∧
    (mkMailOptions f te su m).html
      = String.join
          (m.data.map fun c => if c = '\n' then "<br>" else String.singleton c) ∧
    ((∀ c ∈ m.data, c ≠ '\n') → (mkMailOptions f te su m).html = m) := by
  refine ⟨rfl, replaceNl_eq_join m.data, fun h => ?_⟩
  show toHtml m = m
  rw [toHtml, replaceNl_no_newline m.data h]

theorem c9_witness :
    (∀ c ∈ ("hello, world" : String).data, c ≠ '\n') ∧
    (mkMailOptions "sender@x.com" "a@x.com" "S1" "hello, world").html
      = "hello, world" :=
  ⟨by decide,
    (c9_html_newline_transform "sender@x.com" "a@x.com" "S1" "hello, world").2.2
      (by decide)⟩

/-- Claim C10: with the transport configured, a batch request whose `emails`
field is the empty array passes the array-shape check, makes no dispatcher
calls, and is answered 200 with `success: true` and an empty results list. -/
theorem c10_empty_batch (f : String) (send : Nat → MailOptions → SendOutcome) :
    sendBatchHandler ⟨true, f⟩ send (.arr [])
      = (⟨200, true, "Batch email processing completed", some []⟩, [], 0) := rfl
